import Mathlib

/-!
Verification of the Login Trust Core of the OpenHands repository: the
reCAPTCHA Enterprise risk-decision engine, the OAuth callback orchestration,
the Keycloak token-lifecycle cascade, and the client-side AuthModal
reCAPTCHA gate.  Definitions are translated from
`src/enterprise/server/auth/KEYCLOAK_INTEGRATION.md` (the design document
kept in the repository, which carries the decision logic, the literal IP
extraction code of `auth.py`, the realm token settings and the sequence
diagrams) and from the frontend `AuthModal` component.
-/

/-- Python `str.split(sep)` for a one-character separator, on the character
list of the string.  The Python split always yields at least one piece. -/
def splitOnChar (sep : Char) : List Char → List (List Char)
  | [] => [[]]
  | c :: cs =>
    let rest := splitOnChar sep cs
    if c = sep then [] :: rest
    else
      match rest with
      | [] => [[c]]
      | r :: rs => (c :: r) :: rs

/-- ASCII whitespace recognised by the Python `str.strip()` (the subset that
can occur in an `X-Forwarded-For` header). -/
def isSpaceChar (c : Char) : Bool :=
  c = ' ' || c = '\t' || c = '\n' || c = '\r'

/-- Python `str.strip()`: drop whitespace from both ends. -/
def stripChars (cs : List Char) : List Char :=
  ((cs.dropWhile isSpaceChar).reverse.dropWhile isSpaceChar).reverse

/-- `s.strip()` on strings. -/
def pyStrip (s : String) : String :=
  String.mk (stripChars s.data)

/-- `s.split(sep)` on strings. -/
def pySplit (sep : Char) (s : String) : List String :=
  (splitOnChar sep s.data).map String.mk

/-- Client IP extraction, translated from the code excerpt quoted in
`KEYCLOAK_INTEGRATION.md` (auth.py lines 241-244):
`user_ip = request.client.host if request.client else the sentinel unknown`;
`forwarded_for = request.headers.get(X-Forwarded-For)`;
`if forwarded_for: user_ip = forwarded_for.split(',')[0].strip()`.
`forwardedFor = none` models an absent header; the Python truthiness test
rejects both `None` and the empty string.  `clientHost = none` models an
absent `request.client`. -/
def extractUserIp (forwardedFor : Option String) (clientHost : Option String) : String :=
  let baseIp :=
    match clientHost with
    | some h => h
    | none => "unknown"
  match forwardedFor with
  | some ff => if ff = "" then baseIp else pyStrip ((pySplit ',' ff).headD "")
  | none => baseIp

/-- The Account Defender labels that block a login
(`SUSPICIOUS_LABELS` in `KEYCLOAK_INTEGRATION.md`, Decision Logic section). -/
def SUSPICIOUS_LABELS : List String :=
  ["SUSPICIOUS_LOGIN_ACTIVITY", "SUSPICIOUS_ACCOUNT_CREATION", "RELATED_ACCOUNTS_NUMBER_HIGH"]

/-- Default of the `RECAPTCHA_BLOCK_THRESHOLD` configuration value
(`0.3` in the configuration table of `KEYCLOAK_INTEGRATION.md`). -/
def RECAPTCHA_BLOCK_THRESHOLD : ℚ := mkRat 3 10

/-- The fields of the reCAPTCHA Enterprise assessment response that the
decision consumes (`token_properties.valid`, `token_properties.action`,
`risk_analysis.score`, `risk_analysis.reasons`,
`account_defender_assessment.labels`).  The float score is modelled as a
rational in `[0,1]`. -/
structure RiskAssessment where
  valid : Bool
  action : String
  score : ℚ
  reasons : List String
  accountDefenderLabels : List String
  deriving DecidableEq

/-- Whether any Account Defender label of the assessment is one of the
blocking `SUSPICIOUS_LABELS`. -/
def RiskAssessment.hasSuspiciousLabels (a : RiskAssessment) : Bool :=
  a.accountDefenderLabels.any (fun l => SUSPICIOUS_LABELS.contains l)

/-- Decision Logic of `KEYCLOAK_INTEGRATION.md`:
`allowed = (valid == True AND action == "LOGIN" AND score >= threshold AND
labels ∩ SUSPICIOUS_LABELS == ∅)`. -/
def assessmentAllowed (threshold : ℚ) (a : RiskAssessment) : Bool :=
  a.valid && (a.action == "LOGIN") && decide (threshold ≤ a.score) && !a.hasSuspiciousLabels

/-- The four login outcomes stored in the `login_events` table
(`ALLOWED`, `BLOCKED_NO_TOKEN`, `BLOCKED_RECAPTCHA`, `ERROR`). -/
inductive LoginOutcome
  | ALLOWED
  | BLOCKED_NO_TOKEN
  | BLOCKED_RECAPTCHA
  | ERROR
  deriving DecidableEq

/-- The externally visible steps of the OAuth callback handler, in the order
of the two sequence diagrams of `KEYCLOAK_INTEGRATION.md`. -/
inductive OrchStep
  | exchangeCode
  | fetchUserClaims
  | callCreateAssessment
  | storeLoginEvent (o : LoginOutcome)
  | checkDomainBlocklist
  | setAuthCookie
  | redirectToLogin
  deriving DecidableEq

/-- The result returned to the browser by the callback handler. -/
inductive OrchResult
  | loginSuccess
  | blockedRedirect
  | domainBlockedRedirect
  deriving DecidableEq

/-- Ambient inputs of one invocation of the callback handler.
`assessmentResult = none` models the reCAPTCHA service call raising an
exception or timing out; `some a` models a returned assessment. -/
structure CallbackInput where
  recaptchaTokenPresent : Bool
  assessmentResult : Option RiskAssessment
  domainBlocked : Bool
  deriving DecidableEq

/-- Modelled from the spec: the OAuth callback handler
`enterprise/server/routes/auth.py` is not under `src/`; the model follows
the two sequence diagrams of `KEYCLOAK_INTEGRATION.md`, which are the
record the repository keeps of that handler.  Per the Authentication Flow diagram
the backend first exchanges the authorization code with Keycloak and
fetches the user claims (the assessment needs the email of the user), then runs
the reCAPTCHA verification; per the reCAPTCHA diagram `create_assessment`
is invoked before the decision tree, whose branches are, in order:
token missing, assessment blocked, assessment allowed (with a domain
blocklist check before the cookie), and service error (fail open).
Returns the browser-visible result and the trace of steps executed. -/
def orchestrate (threshold : ℚ) (inp : CallbackInput) : OrchResult × List OrchStep :=
  let base := [OrchStep.exchangeCode, OrchStep.fetchUserClaims, OrchStep.callCreateAssessment]
  if inp.recaptchaTokenPresent = false then
    (OrchResult.blockedRedirect,
      base ++ [OrchStep.storeLoginEvent LoginOutcome.BLOCKED_NO_TOKEN, OrchStep.redirectToLogin])
  else
    match inp.assessmentResult with
    | none =>
      (OrchResult.loginSuccess,
        base ++ [OrchStep.storeLoginEvent LoginOutcome.ERROR, OrchStep.setAuthCookie])
    | some a =>
      if assessmentAllowed threshold a then
        if inp.domainBlocked then
          (OrchResult.domainBlockedRedirect,
            base ++ [OrchStep.storeLoginEvent LoginOutcome.ALLOWED,
              OrchStep.checkDomainBlocklist, OrchStep.redirectToLogin])
        else
          (OrchResult.loginSuccess,
            base ++ [OrchStep.storeLoginEvent LoginOutcome.ALLOWED,
              OrchStep.checkDomainBlocklist, OrchStep.setAuthCookie])
      else
        (OrchResult.blockedRedirect,
          base ++ [OrchStep.storeLoginEvent LoginOutcome.BLOCKED_RECAPTCHA,
            OrchStep.redirectToLogin])

/-- The audit records written during one callback invocation, in order. -/
def loginEventsOf (r : OrchResult × List OrchStep) : List LoginOutcome :=
  r.2.filterMap fun s =>
    match s with
    | OrchStep.storeLoginEvent o => some o
    | _ => none

/-- One credential of the three-tier set: opaque value, issue time and
time-to-live (times in seconds). -/
structure Credential where
  value : String
  issuedAt : Nat
  ttl : Nat
  deriving DecidableEq

/-- A credential is valid at time `t` while `t < issuedAt + ttl`. -/
def Credential.validAt (c : Credential) (t : Nat) : Bool :=
  decide (t < c.issuedAt + c.ttl)

/-- The three-tier credential set held for one session: access and refresh
in the `keycloak_auth` cookie, the offline credential (when one exists) in
the database. -/
structure TokenStore where
  access : Credential
  refresh : Credential
  offline : Option Credential
  deriving DecidableEq

/-- Token lifetimes configured on the IdP realm. -/
structure IdpConfig where
  accessTtl : Nat
  refreshTtl : Nat
  offlineTtl : Nat
  deriving DecidableEq

/-- Keycloak realm token settings from `KEYCLOAK_INTEGRATION.md`:
access token 5 minutes, refresh token 30 minutes, offline session 30 days
(in seconds). -/
def keycloakRealmConfig : IdpConfig :=
  { accessTtl := 300, refreshTtl := 1800, offlineTtl := 2592000 }

/-- The per-session token-lifecycle states. -/
inductive TMState
  | VALID
  | REFRESHING
  | OFFLINE_REFRESHING
  | EXPIRED
  deriving DecidableEq

/-- Modelled from the spec: `enterprise/server/auth/token_manager.py` is not
under `src/`; the transitions follow the Token Refresh Flow and Session
Expiration flowcharts of `KEYCLOAK_INTEGRATION.md`.  In `REFRESHING`, a
valid refresh credential is exchanged for a freshly issued access+refresh
pair (ttls from the realm configuration); on IdP rejection the machine
falls to `OFFLINE_REFRESHING` when an offline credential exists, else to
`EXPIRED`.  In `OFFLINE_REFRESHING`, a valid offline credential is
exchanged for a new refresh credential and the machine re-enters
`REFRESHING`; on rejection it reaches `EXPIRED`.  The IdP accepts an
exchange exactly when the presented credential is valid at the current
time. -/
def tmStep (cfg : IdpConfig) (t : Nat) : TMState → TokenStore → TMState × TokenStore
  | TMState.VALID, store => (TMState.VALID, store)
  | TMState.REFRESHING, store =>
    if store.refresh.validAt t then
      (TMState.VALID,
        { store with
            access := { value := "rotated-access", issuedAt := t, ttl := cfg.accessTtl }
            refresh := { value := "rotated-refresh", issuedAt := t, ttl := cfg.refreshTtl } })
    else
      match store.offline with
      | some _ => (TMState.OFFLINE_REFRESHING, store)
      | none => (TMState.EXPIRED, store)
  | TMState.OFFLINE_REFRESHING, store =>
    match store.offline with
    | some oc =>
      if oc.validAt t then
        (TMState.REFRESHING,
          { store with
              refresh := { value := "offline-issued-refresh", issuedAt := t, ttl := cfg.refreshTtl } })
      else (TMState.EXPIRED, store)
    | none => (TMState.EXPIRED, store)
  | TMState.EXPIRED, store => (TMState.EXPIRED, store)

/-- Iterate `tmStep` until a terminal state (`VALID` or `EXPIRED`) or the
fuel runs out, collecting the visited states. -/
def tmRun (cfg : IdpConfig) (t : Nat) : Nat → TMState → TokenStore → List TMState
  | 0, s, _ => [s]
  | fuel + 1, s, store =>
    match s with
    | TMState.VALID => [TMState.VALID]
    | TMState.EXPIRED => [TMState.EXPIRED]
    | s =>
      let next := tmStep cfg t s store
      s :: tmRun cfg t fuel next.1 next.2

/-- `ensureValid`: serve directly from `VALID` when the access credential is
unexpired, otherwise enter `REFRESHING` and run the cascade; returns the
sequence of lifecycle states visited.  Four steps of fuel suffice for the
deepest cascade (refresh rejected, offline exchange, refresh, valid). -/
def ensureValidStates (cfg : IdpConfig) (t : Nat) (store : TokenStore) : List TMState :=
  tmRun cfg t 4 (if store.access.validAt t then TMState.VALID else TMState.REFRESHING) store

/-- The configured ttls are strictly ordered across the three tiers. -/
def IdpConfig.ttlOrdered (cfg : IdpConfig) : Bool :=
  decide (cfg.accessTtl < cfg.refreshTtl) && decide (cfg.refreshTtl < cfg.offlineTtl)

/-- Every credential of the store carries the ttl configured for its tier. -/
def TokenStore.ttlsFromConfig (store : TokenStore) (cfg : IdpConfig) : Bool :=
  decide (store.access.ttl = cfg.accessTtl) && decide (store.refresh.ttl = cfg.refreshTtl) &&
    (match store.offline with
     | some oc => decide (oc.ttl = cfg.offlineTtl)
     | none => true)

/-- The ttls held in the store are strictly ordered across the tiers. -/
def TokenStore.ttlOrdered (store : TokenStore) : Bool :=
  decide (store.access.ttl < store.refresh.ttl) &&
    (match store.offline with
     | some oc => decide (store.refresh.ttl < oc.ttl)
     | none => true)

/-- Result of an awaited browser/network call in the AuthModal:
either the promise rejects (an exception is thrown) or it resolves. -/
inductive JsCall (α : Type)
  | throws
  | returns (a : α)
  deriving DecidableEq

/-- Ambient environment of the frontend `AuthModal` component
(`auth-modal.tsx`): the configured site key (`VITE_RECAPTCHA_SITE_KEY`),
whether `recaptchaRef.current` is non-null, the result of
`recaptchaRef.current.executeAsync()` (a resolved token of `none` or
`some ""` is falsy in JavaScript), and the result of the backend
`verifyRecaptcha` mutation (`success` flag). -/
structure AuthModalEnv where
  recaptchaSiteKey : Option String
  recaptchaRefPresent : Bool
  executeResult : JsCall (Option String)
  verifyResult : JsCall Bool
  deriving DecidableEq

/-- Component state touched by the handlers: the `recaptchaError` flag and
`window.location.href`. -/
structure AuthModalState where
  recaptchaError : Bool
  locationHref : String
  deriving DecidableEq

/-- `validateRecaptcha` from `auth-modal.tsx`: returns `true` at once when
no site key is configured; sets the error flag and returns `false` when the
ref is missing, the challenge throws, the token is falsy, or backend
verification fails; clears the flag and returns `true` on success.  The
`try` block covers both awaited calls. -/
def validateRecaptcha (env : AuthModalEnv) (st : AuthModalState) : Bool × AuthModalState :=
  match env.recaptchaSiteKey with
  | none => (true, st)
  | some _ =>
    if env.recaptchaRefPresent = false then
      (false, { st with recaptchaError := true })
    else
      match env.executeResult with
      | JsCall.throws => (false, { st with recaptchaError := true })
      | JsCall.returns tok =>
        if tok = none ∨ tok = some "" then
          (false, { st with recaptchaError := true })
        else
          match env.verifyResult with
          | JsCall.throws => (false, { st with recaptchaError := true })
          | JsCall.returns success =>
            if success then (true, { st with recaptchaError := false })
            else (false, { st with recaptchaError := true })

/-- The shared shape of `handleGitHubAuth`, `handleGitLabAuth`,
`handleBitbucketAuth`, `handleAzureDevOpsAuth` and
`handleEnterpriseSsoAuth` in `auth-modal.tsx`: validate reCAPTCHA, return
early on failure, otherwise redirect to the provider auth URL when one is
configured. -/
def handleProviderAuth (env : AuthModalEnv) (authUrl : Option String)
    (st : AuthModalState) : AuthModalState :=
  let v := validateRecaptcha env st
  if v.1 = false then v.2
  else
    match authUrl with
    | some url => { v.2 with locationHref := url }
    | none => v.2

/-- C1: for every `RiskAssessment`, the login decision equals the
conjunction of the four conjuncts (token valid, action equals `LOGIN`,
score at least the configured threshold, Account Defender labels disjoint
from the fixed block set), and flipping any single conjunct to false while
the other three hold forces the blocked outcome; the default threshold is
`0.3`. -/
theorem claim_C1_decision_rule (t : ℚ) (a : RiskAssessment) :
    (assessmentAllowed t a = true ↔
      (a.valid = true ∧ a.action = "LOGIN" ∧ t ≤ a.score ∧ a.hasSuspiciousLabels = false))
    ∧ (a.valid = false → assessmentAllowed t a = false)
    ∧ (a.action ≠ "LOGIN" → assessmentAllowed t a = false)
    ∧ (a.score < t → assessmentAllowed t a = false)
    ∧ (a.hasSuspiciousLabels = true → assessmentAllowed t a = false)
    ∧ RECAPTCHA_BLOCK_THRESHOLD = 3 / 10 := by
  refine ⟨?_, ?_, ?_, ?_, ?_, ?_⟩
  · simp [assessmentAllowed, Bool.and_eq_true, decide_eq_true_iff, beq_iff_eq,
      Bool.not_eq_true', and_assoc]
  · intro h; simp [assessmentAllowed, h]
  · intro h; simp [assessmentAllowed, h]
  · intro h; simp [assessmentAllowed, decide_eq_false (not_le.mpr h)]
  · intro h; simp [assessmentAllowed, h]
  · rw [RECAPTCHA_BLOCK_THRESHOLD, Rat.mkRat_eq_divInt, Rat.divInt_eq_div]; norm_num

/-- C1 witness: a high-score valid assessment is allowed at the default
threshold, and flipping each conjunct alone blocks it. -/
theorem claim_C1_decision_rule_witness :
    assessmentAllowed (mkRat 3 10)
      { valid := true, action := "LOGIN", score := mkRat 9 10, reasons := [],
        accountDefenderLabels := ["PROFILE_MATCH"] } = true
    ∧ assessmentAllowed (mkRat 3 10)
      { valid := false, action := "LOGIN", score := mkRat 9 10, reasons := [],
        accountDefenderLabels := ["PROFILE_MATCH"] } = false
    ∧ assessmentAllowed (mkRat 3 10)
      { valid := true, action := "PAYMENT", score := mkRat 9 10, reasons := [],
        accountDefenderLabels := ["PROFILE_MATCH"] } = false
    ∧ assessmentAllowed (mkRat 3 10)
      { valid := true, action := "LOGIN", score := mkRat 1 10, reasons := [],
        accountDefenderLabels := ["PROFILE_MATCH"] } = false
    ∧ assessmentAllowed (mkRat 3 10)
      { valid := true, action := "LOGIN", score := mkRat 9 10, reasons := [],
        accountDefenderLabels := ["SUSPICIOUS_LOGIN_ACTIVITY"] } = false :=
  ⟨(claim_C1_decision_rule (mkRat 3 10) _).1.mpr ⟨rfl, rfl, by decide, rfl⟩,
   (claim_C1_decision_rule (mkRat 3 10) _).2.1 rfl,
   (claim_C1_decision_rule (mkRat 3 10) _).2.2.1 (by decide),
   (claim_C1_decision_rule (mkRat 3 10) _).2.2.2.1 (by decide),
   (claim_C1_decision_rule (mkRat 3 10) _).2.2.2.2.1 rfl⟩

/-- C2 counterexample: a token-less attempt ends blocked
(`BLOCKED_NO_TOKEN`), yet its trace begins with the authorization-code
exchange, which therefore executes before the risk decision; the claim that
a blocked attempt never reaches the token exchange is false on the modelled
flow. -/
theorem claim_C2_counterexample :
    loginEventsOf (orchestrate RECAPTCHA_BLOCK_THRESHOLD
        { recaptchaTokenPresent := false, assessmentResult := none, domainBlocked := false })
      = [LoginOutcome.BLOCKED_NO_TOKEN]
    ∧ (orchestrate RECAPTCHA_BLOCK_THRESHOLD
        { recaptchaTokenPresent := false, assessmentResult := none, domainBlocked := false }).2
      = [OrchStep.exchangeCode, OrchStep.fetchUserClaims, OrchStep.callCreateAssessment,
          OrchStep.storeLoginEvent LoginOutcome.BLOCKED_NO_TOKEN, OrchStep.redirectToLogin] := by
  constructor <;> rfl

/-- C2 amended: within one login attempt the code exchange and the user
claims fetch execute before the risk decision (the assessment needs the
email from the claims); an attempt whose risk outcome is blocked never
reaches session-cookie issuance. -/
theorem claim_C2_amended_ordering (th : ℚ) (inp : CallbackInput) :
    ((orchestrate th inp).2.take 3
      = [OrchStep.exchangeCode, OrchStep.fetchUserClaims, OrchStep.callCreateAssessment])
    ∧ ((loginEventsOf (orchestrate th inp) = [LoginOutcome.BLOCKED_NO_TOKEN]
          ∨ loginEventsOf (orchestrate th inp) = [LoginOutcome.BLOCKED_RECAPTCHA]) →
        OrchStep.setAuthCookie ∉ (orchestrate th inp).2) := by
  obtain ⟨tok, ares, dom⟩ := inp
  cases tok <;> cases dom <;> cases ares <;>
    simp only [orchestrate, loginEventsOf] <;>
    split_ifs <;> simp

/-- C2 amended witness: the token-less blocked attempt never issues a
session cookie. -/
theorem claim_C2_amended_ordering_witness :
    OrchStep.setAuthCookie ∉ (orchestrate RECAPTCHA_BLOCK_THRESHOLD
      { recaptchaTokenPresent := false, assessmentResult := none, domainBlocked := false }).2 :=
  (claim_C2_amended_ordering RECAPTCHA_BLOCK_THRESHOLD _).2 (Or.inl rfl)

/-- C3: when the risk-assessment call raises or times out, the
caller-visible result is a successful login (fail open, cookie issued)
while the single audit record written carries outcome `ERROR`, not
`ALLOWED`. -/
theorem claim_C3_fail_open (th : ℚ) (inp : CallbackInput)
    (h1 : inp.recaptchaTokenPresent = true) (h2 : inp.assessmentResult = none) :
    (orchestrate th inp).1 = OrchResult.loginSuccess
    ∧ OrchStep.setAuthCookie ∈ (orchestrate th inp).2
    ∧ loginEventsOf (orchestrate th inp) = [LoginOutcome.ERROR] := by
  simp [orchestrate, loginEventsOf, h1, h2]

/-- C3 witness: a concrete attempt whose assessment call errored logs in
successfully. -/
theorem claim_C3_fail_open_witness :
    (orchestrate RECAPTCHA_BLOCK_THRESHOLD
      { recaptchaTokenPresent := true, assessmentResult := none, domainBlocked := false }).1
      = OrchResult.loginSuccess :=
  (claim_C3_fail_open RECAPTCHA_BLOCK_THRESHOLD _ rfl rfl).1

/-- C4 counterexample: a token-less attempt records `BLOCKED_NO_TOKEN`, but
its trace contains the `create_assessment` call, which per the sequence
diagram is issued before the decision tree; the claim that no call is made
to the risk service is false on the modelled flow. -/
theorem claim_C4_counterexample :
    loginEventsOf (orchestrate RECAPTCHA_BLOCK_THRESHOLD
        { recaptchaTokenPresent := false, assessmentResult := none, domainBlocked := true })
      = [LoginOutcome.BLOCKED_NO_TOKEN]
    ∧ OrchStep.callCreateAssessment ∈ (orchestrate RECAPTCHA_BLOCK_THRESHOLD
        { recaptchaTokenPresent := false, assessmentResult := none, domainBlocked := true }).2 := by
  constructor
  · rfl
  · decide

/-- C4 amended: every attempt with the risk token absent records exactly
the outcome `BLOCKED_NO_TOKEN` and returns the blocked redirect, but the
`create_assessment` call is still issued before the token-missing branch is
evaluated. -/
theorem claim_C4_amended_no_token (th : ℚ) (inp : CallbackInput)
    (h : inp.recaptchaTokenPresent = false) :
    loginEventsOf (orchestrate th inp) = [LoginOutcome.BLOCKED_NO_TOKEN]
    ∧ (orchestrate th inp).1 = OrchResult.blockedRedirect
    ∧ OrchStep.callCreateAssessment ∈ (orchestrate th inp).2 := by
  simp [orchestrate, loginEventsOf, h]

/-- C4 amended witness: a concrete token-less attempt records
`BLOCKED_NO_TOKEN`. -/
theorem claim_C4_amended_no_token_witness :
    loginEventsOf (orchestrate RECAPTCHA_BLOCK_THRESHOLD
        { recaptchaTokenPresent := false, assessmentResult := none, domainBlocked := false })
      = [LoginOutcome.BLOCKED_NO_TOKEN] :=
  (claim_C4_amended_no_token RECAPTCHA_BLOCK_THRESHOLD _ rfl).1

/-- C5: every invocation of the callback orchestrator writes exactly one
`LoginEvent`, whichever of the branches (blocked-no-token,
blocked-rejected, allowed with or without domain block, service error) is
taken. -/
theorem claim_C5_single_audit_write (th : ℚ) (inp : CallbackInput) :
    (loginEventsOf (orchestrate th inp)).length = 1 := by
  obtain ⟨tok, ares, dom⟩ := inp
  cases tok <;> cases dom <;> cases ares <;>
    simp only [orchestrate, loginEventsOf] <;>
    split_ifs <;> simp

/-- C6: the client IP is the first comma-separated entry of the
forwarded-for header, stripped, whenever that header is present and
non-empty (the peer address is then never consulted); otherwise it is the
transport-level peer address, or the sentinel `unknown` when none exists. -/
theorem claim_C6_ip_extraction (ff clientHost : Option String) :
    (∀ s, ff = some s → s ≠ "" →
      extractUserIp ff clientHost = pyStrip ((pySplit ',' s).headD ""))
    ∧ ((ff = none ∨ ff = some "") → extractUserIp ff clientHost = clientHost.getD "unknown") := by
  constructor
  · intro s hs hne
    subst hs
    simp [extractUserIp, hne]
  · intro h
    rcases h with h | h <;> subst h <;> cases clientHost <;> simp [extractUserIp]

/-- C6 witness: a spoofable header wins over the peer address, the peer
address is used when the header is absent, and the sentinel is used when
both are missing. -/
theorem claim_C6_ip_extraction_witness :
    extractUserIp (some " 203.0.113.45 ,10.0.0.1") (some "9.9.9.9") = "203.0.113.45"
    ∧ extractUserIp none (some "9.9.9.9") = "9.9.9.9"
    ∧ extractUserIp (some "") none = "unknown" := by
  refine ⟨?_, ?_, ?_⟩
  · rw [(claim_C6_ip_extraction (some " 203.0.113.45 ,10.0.0.1") (some "9.9.9.9")).1
      " 203.0.113.45 ,10.0.0.1" rfl (by decide)]
    decide
  · rw [(claim_C6_ip_extraction none (some "9.9.9.9")).2 (Or.inl rfl)]
    rfl
  · rw [(claim_C6_ip_extraction (some "") none).2 (Or.inr rfl)]
    rfl

/-- C7: a session whose access and refresh credentials are expired but
whose offline credential is valid runs the cascade
`REFRESHING → OFFLINE_REFRESHING → REFRESHING → VALID` (the offline
credential buys a fresh refresh credential, which buys a fresh access
credential) and never visits `EXPIRED`. -/
theorem claim_C7_tier_cascade (cfg : IdpConfig) (t : Nat) (store : TokenStore) (oc : Credential)
    (hA : store.access.validAt t = false) (hR : store.refresh.validAt t = false)
    (hO : store.offline = some oc) (hOv : oc.validAt t = true)
    (hT : 0 < cfg.refreshTtl) :
    ensureValidStates cfg t store
      = [TMState.REFRESHING, TMState.OFFLINE_REFRESHING, TMState.REFRESHING, TMState.VALID]
    ∧ TMState.EXPIRED ∉ ensureValidStates cfg t store := by
  have hfresh : (Credential.validAt
      { value := "offline-issued-refresh", issuedAt := t, ttl := cfg.refreshTtl } t) = true := by
    simp [Credential.validAt, hT]
  have h1 : ensureValidStates cfg t store
      = [TMState.REFRESHING, TMState.OFFLINE_REFRESHING, TMState.REFRESHING, TMState.VALID] := by
    simp [ensureValidStates, tmRun, tmStep, hA, hR, hO, hOv, hfresh]
  exact ⟨h1, by rw [h1]; decide⟩

/-- C7 witness: the cascade on a concrete session under the Keycloak realm
configuration. -/
theorem claim_C7_tier_cascade_witness :
    ensureValidStates keycloakRealmConfig 10000
      { access := { value := "a", issuedAt := 0, ttl := 300 },
        refresh := { value := "r", issuedAt := 0, ttl := 1800 },
        offline := some { value := "o", issuedAt := 0, ttl := 2592000 } }
      = [TMState.REFRESHING, TMState.OFFLINE_REFRESHING, TMState.REFRESHING, TMState.VALID] :=
  (claim_C7_tier_cascade keycloakRealmConfig 10000 _ _
    (by decide) (by decide) rfl (by decide) (by decide)).1

/-- C8: the Keycloak realm configuration orders the three tier lifetimes
strictly (5 minutes < 30 minutes < 30 days); a store whose credentials
carry the configured ttls is strictly ordered, and every lifecycle
transition preserves carrying the configured ttls, so the ordering holds
after every tier transition. -/
theorem claim_C8_ttl_ordering :
    keycloakRealmConfig.ttlOrdered = true
    ∧ (∀ (cfg : IdpConfig) (store : TokenStore), cfg.ttlOrdered = true →
        store.ttlsFromConfig cfg = true → store.ttlOrdered = true)
    ∧ (∀ (cfg : IdpConfig) (t : Nat) (s : TMState) (store : TokenStore),
        store.ttlsFromConfig cfg = true → ((tmStep cfg t s store).2).ttlsFromConfig cfg = true) := by
  refine ⟨by decide, ?_, ?_⟩
  · intro cfg store ho hf
    cases hoc : store.offline <;>
      simp [IdpConfig.ttlOrdered, TokenStore.ttlsFromConfig, TokenStore.ttlOrdered, hoc] at * <;>
      omega
  · intro cfg t s store hf
    cases s <;> cases hoc : store.offline <;>
      simp only [tmStep, hoc] <;>
      (try split_ifs) <;>
      simp_all [TokenStore.ttlsFromConfig, hoc]

/-- C8 witness: a concrete store issued under the Keycloak realm
configuration is strictly ordered. -/
theorem claim_C8_ttl_ordering_witness :
    TokenStore.ttlOrdered
      { access := { value := "a", issuedAt := 0, ttl := 300 },
        refresh := { value := "r", issuedAt := 0, ttl := 1800 },
        offline := some { value := "o", issuedAt := 0, ttl := 2592000 } } = true :=
  claim_C8_ttl_ordering.2.1 keycloakRealmConfig _ (by decide) (by decide)

/-- C10: with a reCAPTCHA site key configured, if the challenge throws,
resolves to a falsy token, or the backend verification reports failure,
then `validateRecaptcha` returns `false`, the error indicator is set, and
no provider auth handler changes `window.location.href` (the client gate
fails closed). -/
theorem claim_C10_client_fail_closed (env : AuthModalEnv) (st : AuthModalState) (k : String)
    (hkey : env.recaptchaSiteKey = some k)
    (hfail : env.executeResult = JsCall.throws
      ∨ env.executeResult = JsCall.returns none
      ∨ env.executeResult = JsCall.returns (some "")
      ∨ env.verifyResult = JsCall.returns false) :
    (validateRecaptcha env st).1 = false
    ∧ (validateRecaptcha env st).2.recaptchaError = true
    ∧ ∀ authUrl, (handleProviderAuth env authUrl st).locationHref = st.locationHref := by
  obtain ⟨key, refp, exec, verif⟩ := env
  have hkey2 : key = some k := hkey
  subst hkey2
  have hp : validateRecaptcha ⟨some k, refp, exec, verif⟩ st
      = (false, { st with recaptchaError := true }) := by
    rcases hfail with h | h | h | h
    · have hx : exec = JsCall.throws := h
      subst hx
      cases refp <;> simp [validateRecaptcha]
    · have hx : exec = JsCall.returns none := h
      subst hx
      cases refp <;> simp [validateRecaptcha]
    · have hx : exec = JsCall.returns (some "") := h
      subst hx
      cases refp <;> simp [validateRecaptcha]
    · have hx : verif = JsCall.returns false := h
      subst hx
      cases refp
      · simp [validateRecaptcha]
      · cases exec with
        | throws => simp [validateRecaptcha]
        | returns tok =>
          rcases tok with _ | t
          · simp [validateRecaptcha]
          · by_cases ht : t = ""
            · subst ht; simp [validateRecaptcha]
            · simp [validateRecaptcha, ht]
  refine ⟨by rw [hp], by rw [hp], ?_⟩
  intro authUrl
  simp [handleProviderAuth, hp]

/-- C10 witness: a null token blocks the GitHub redirect on a concrete
environment. -/
theorem claim_C10_client_fail_closed_witness :
    (validateRecaptcha
        { recaptchaSiteKey := some "site", recaptchaRefPresent := true,
          executeResult := JsCall.returns none, verifyResult := JsCall.returns true }
        { recaptchaError := false, locationHref := "" }).1 = false
    ∧ (handleProviderAuth
        { recaptchaSiteKey := some "site", recaptchaRefPresent := true,
          executeResult := JsCall.returns none, verifyResult := JsCall.returns true }
        (some "https://github.example/auth")
        { recaptchaError := false, locationHref := "" }).locationHref = "" := by
  have h := claim_C10_client_fail_closed
    { recaptchaSiteKey := some "site", recaptchaRefPresent := true,
      executeResult := JsCall.returns none, verifyResult := JsCall.returns true }
    { recaptchaError := false, locationHref := "" } "site" rfl (Or.inr (Or.inl rfl))
  exact ⟨h.1, h.2.2 (some "https://github.example/auth")⟩
